import Mathlib

/-!
Shallow embedding of the Glenmore Wellness Clinic backend's reporting and
routing logic (`backend/clinic_api/services/reports.py`, `backend/app.py`,
`backend_v2/main.py`).

Monetary amounts are modelled as exact rationals (`ℚ`); BSON dates are
modelled as a calendar triple with lexicographic order; Mongo collections
are Lean lists; `$lookup`/`$unwind` become `filter`/`flatMap`.
-/

namespace Clinic

/-- A point in time, at day granularity, as the aggregation pipelines compare
invoice and payment dates (`$toDate` results ordered chronologically). -/
structure DateTime where
  year : Int
  month : Int
  day : Int
deriving DecidableEq, Repr

/-- Chronological `≤` on dates (lexicographic on year, month, day). -/
def DateTime.leb (a b : DateTime) : Bool :=
  a.year < b.year ||
    (a.year = b.year && (a.month < b.month ||
      (a.month = b.month && a.day ≤ b.day)))

/-- Chronological `<` on dates. -/
def DateTime.ltb (a b : DateTime) : Bool :=
  a.year < b.year ||
    (a.year = b.year && (a.month < b.month ||
      (a.month = b.month && a.day < b.day)))

/-- The `datetime.isoformat()` surrogate (exact format irrelevant to the claims). -/
def DateTime.iso (d : DateTime) : String :=
  toString d.year ++ "-" ++ toString d.month ++ "-" ++ toString d.day

/-- A document of the `Patient` collection (fields the reports read). -/
structure Patient where
  patient_id : Int
  first_name : String
  last_name : String
deriving DecidableEq, Repr

/-- A document of the `Invoice` collection (fields the reports read). -/
structure Invoice where
  invoice_id : Int
  patient_id : Int
  invoice_date : DateTime
  total_amount : ℚ
  patient_portion : ℚ
  status : String
deriving DecidableEq, Repr

/-- A document of the `Payment` collection (fields the reports read). -/
structure Payment where
  payment_id : Int
  invoice_id : Int
  payment_date : DateTime
  amount : ℚ
deriving DecidableEq, Repr

/-- A document of the `InvoiceLine` collection. -/
structure InvoiceLine where
  line_id : Int
  invoice_id : Int
  description : String
  amount : ℚ
deriving DecidableEq, Repr

/-- The database state: the collections the billing reports touch. -/
structure DB where
  patients : List Patient
  invoices : List Invoice
  payments : List Payment
  invoiceLines : List InvoiceLine
deriving DecidableEq, Repr

/-- The match range start `datetime(year, month, 1)`: first day of the month. -/
def monthStart (month year : Int) : DateTime := ⟨year, month, 1⟩

/-- The pipeline's end date: `datetime(year+1, 1, 1)` when `month == 12`,
else `datetime(year, month+1, 1)` (reports.py lines 212-216). -/
def monthEnd (month year : Int) : DateTime :=
  if month = 12 then ⟨year + 1, 1, 1⟩ else ⟨year, month + 1, 1⟩

/-! ## get_outstanding_balances (reports.py lines 114-153) -/

/-- The `$lookup` of `Payment` by `invoice_id` (no date cutoff). -/
def paymentsFor (db : DB) (invId : Int) : List Payment :=
  db.payments.filter (fun p => p.invoice_id = invId)

/-- The `$lookup` of `Patient` by `patient_id` (all matches, in order). -/
def patientsFor (db : DB) (pid : Int) : List Patient :=
  db.patients.filter (fun p => p.patient_id = pid)

/-- A row of the outstanding-balances `$project` stage (lines 141-149). -/
structure OutstandingRow where
  patient_name : String
  patient_id : Int
  invoice_id : Int
  total_amount : ℚ
  patient_portion : ℚ
  total_paid : ℚ
  balance_due : ℚ
deriving DecidableEq, Repr

/-- Builds one projected row from an invoice and its unwound patient. -/
def outstandingRow (db : DB) (inv : Invoice) (pat : Patient) : OutstandingRow :=
  let pays := paymentsFor db inv.invoice_id
  let tp := (pays.map (·.amount)).sum
  { patient_name := pat.first_name ++ " " ++ pat.last_name
    patient_id := inv.patient_id
    invoice_id := inv.invoice_id
    total_amount := inv.total_amount
    patient_portion := inv.patient_portion
    total_paid := tp
    balance_due := inv.patient_portion - tp }

/-- Embeds `ReportService.get_outstanding_balances`: match `status ≠ "paid"`, join
patient (`$unwind` drops invoices with no match), join payments, project the
balance, keep rows with `balance_due > 0`. -/
def get_outstanding_balances (db : DB) : List OutstandingRow :=
  (((db.invoices.filter (fun inv => inv.status ≠ "paid")).flatMap (fun inv =>
      (patientsFor db inv.patient_id).map (fun pat =>
        outstandingRow db inv pat)))).filter (fun r => 0 < r.balance_due)

/-! ## get_monthly_statements: aggregation pipeline (reports.py lines 224-277) -/

/-- A pipeline output document after the `$addFields`/`$project` stages. -/
structure EnrichedInvoice where
  invoice_id : Int
  invoice_date : DateTime
  patient_id : Int
  patient_name : String
  total_amount : ℚ
  patient_portion : ℚ
  total_paid : ℚ
  balance_due : ℚ
  lines : List InvoiceLine
  payments : List Payment
deriving DecidableEq, Repr

/-- The `$match` on coerced `invoice_date`: `start ≤ d < end` (lines 225-226). -/
def matchInvoiceDate (invoices : List Invoice) (month year : Int) : List Invoice :=
  invoices.filter (fun inv =>
    (monthStart month year).leb inv.invoice_date &&
      inv.invoice_date.ltb (monthEnd month year))

/-- The `Patient` `$lookup` + `$unwind` (lines 228-234): one output document
per (invoice, matching patient) pair; invoices with no match are dropped. -/
def lookupPatientUnwind (db : DB) (invs : List Invoice) : List (Invoice × Patient) :=
  invs.flatMap (fun inv => (patientsFor db inv.patient_id).map (fun pat => (inv, pat)))

/-- The `Payment` sub-pipeline `$lookup` (lines 236-247): payments of the
invoice whose `payment_date` is `≤` the end date. -/
def paymentsByCutoff (db : DB) (invId : Int) (cutoff : DateTime) : List Payment :=
  db.payments.filter (fun p => p.invoice_id = invId && p.payment_date.leb cutoff)

/-- The `$addFields` totals + `$project` (lines 249-274): per-invoice
`total_paid`, `balance_due`, `patient_name`, carried `lines` and `payments`. -/
def computeTotals (db : DB) (month year : Int) (x : Invoice × Patient) : EnrichedInvoice :=
  let pays := paymentsByCutoff db x.1.invoice_id (monthEnd month year)
  let tp := (pays.map (·.amount)).sum
  { invoice_id := x.1.invoice_id
    invoice_date := x.1.invoice_date
    patient_id := x.1.patient_id
    patient_name := x.2.first_name ++ " " ++ x.2.last_name
    total_amount := x.1.total_amount
    patient_portion := x.1.patient_portion
    total_paid := tp
    balance_due := x.1.patient_portion - tp
    lines := db.invoiceLines.filter (fun l => l.invoice_id = x.1.invoice_id)
    payments := pays }

/-- The pipeline result `invoices = list(db.Invoice.aggregate(pipeline))` (line 277). -/
def monthlyPipeline (db : DB) (month year : Int) : List EnrichedInvoice :=
  (lookupPatientUnwind db (matchInvoiceDate db.invoices month year)).map
    (computeTotals db month year)

/-! ## get_monthly_statements: grouping loop (reports.py lines 282-341) -/

/-- The invoice dict appended to a patient's `invoices` list (lines 296-305). -/
structure StmtInvoice where
  invoice_id : Int
  invoice_date : DateTime
  total_amount : ℚ
  patient_portion : ℚ
  total_paid : ℚ
  balance_due : ℚ
  lines : List InvoiceLine
  payments : List Payment
deriving DecidableEq, Repr

/-- Projection of a pipeline document onto the kept invoice fields. -/
def EnrichedInvoice.toStmt (e : EnrichedInvoice) : StmtInvoice :=
  { invoice_id := e.invoice_id
    invoice_date := e.invoice_date
    total_amount := e.total_amount
    patient_portion := e.patient_portion
    total_paid := e.total_paid
    balance_due := e.balance_due
    lines := e.lines
    payments := e.payments }

/-- A per-patient statement (the dict built at lines 287-294). -/
structure PatientStatement where
  patient_id : Int
  patient_name : String
  invoices : List StmtInvoice
  total_invoiced : ℚ
  payments_received : ℚ
  balance : ℚ
deriving DecidableEq, Repr

/-- The fresh statement created on a patient's first invoice (lines 287-294). -/
def newStatement (e : EnrichedInvoice) : PatientStatement :=
  { patient_id := e.patient_id
    patient_name := e.patient_name
    invoices := []
    total_invoiced := 0
    payments_received := 0
    balance := 0 }

/-- One loop body iteration's effect on an existing statement
(lines 296-309): append the invoice and bump the three running sums. -/
def addInvoice (st : PatientStatement) (e : EnrichedInvoice) : PatientStatement :=
  { st with
    invoices := st.invoices ++ [e.toStmt]
    total_invoiced := st.total_invoiced + e.patient_portion
    payments_received := st.payments_received + e.total_paid
    balance := st.balance + e.balance_due }

/-- One iteration of the grouping loop over an insertion-ordered group list
(the Python dict keyed by `patient_id`, lines 283-309). -/
def updateGroups (groups : List PatientStatement) (e : EnrichedInvoice) :
    List PatientStatement :=
  if groups.any (fun g => g.patient_id = e.patient_id) then
    groups.map (fun g => if g.patient_id = e.patient_id then addInvoice g e else g)
  else
    groups ++ [addInvoice (newStatement e) e]

/-- The whole grouping loop: fold the pipeline output into per-patient
statements, in first-seen patient order. -/
def groupByPatient (l : List EnrichedInvoice) : List PatientStatement :=
  l.foldl updateGroups []

/-- Python's `round(x, 2)` on exact rationals: scale by 100, round
half-to-even to an integer, scale back. -/
def pyRound2 (q : ℚ) : ℚ :=
  let x := q * 100
  let f : Int := ⌊x⌋
  let n : Int :=
    if x - (f : ℚ) < 1/2 then f
    else if (1 : ℚ)/2 < x - (f : ℚ) then f + 1
    else if f % 2 = 0 then f else f + 1
  (n : ℚ) / 100

/-- The classification test at line 321: `round(p['balance'], 2) <= 0`. -/
def isPaidStatement (st : PatientStatement) : Bool :=
  pyRound2 st.balance ≤ 0

/-- Running totals for one bucket (lines 314-317). -/
structure BucketTotals where
  total_invoiced : ℚ
  payments_received : ℚ
  balance : ℚ
deriving DecidableEq, Repr

/-- The `summary` value: both buckets' patient lists and totals. -/
structure Summary where
  paid_patients : List PatientStatement
  paid_totals : BucketTotals
  unpaid_patients : List PatientStatement
  unpaid_totals : BucketTotals
deriving DecidableEq, Repr

/-- One iteration of the classification loop (lines 319-330). -/
def classifyStep (acc : Summary) (p : PatientStatement) : Summary :=
  if isPaidStatement p then
    { acc with
      paid_patients := acc.paid_patients ++ [p]
      paid_totals :=
        { total_invoiced := acc.paid_totals.total_invoiced + p.total_invoiced
          payments_received := acc.paid_totals.payments_received + p.payments_received
          balance := acc.paid_totals.balance + p.balance } }
  else
    { acc with
      unpaid_patients := acc.unpaid_patients ++ [p]
      unpaid_totals :=
        { total_invoiced := acc.unpaid_totals.total_invoiced + p.total_invoiced
          payments_received := acc.unpaid_totals.payments_received + p.payments_received
          balance := acc.unpaid_totals.balance + p.balance } }

/-- The classification loop over the grouped statements. -/
def classify (l : List PatientStatement) : Summary :=
  l.foldl classifyStep ⟨[], ⟨0, 0, 0⟩, [], ⟨0, 0, 0⟩⟩

/-- The value returned by `get_monthly_statements` (lines 332-338). -/
structure MonthlyStatements where
  month : String
  summary : Summary
deriving DecidableEq, Repr

/-- Embeds `ReportService.get_monthly_statements`: run the aggregation pipeline,
group by patient, classify patients into paid/unpaid, return month label
and summary. -/
def get_monthly_statements (db : DB) (month year : Int) : MonthlyStatements :=
  { month := toString month ++ "/" ++ toString year
    summary := classify (groupByPatient (monthlyPipeline db month year)) }

/-! ## _sanitize_for_json (reports.py lines 9-54)

Python values reaching the sanitizer, as a tree. `decimal128` carries the
float value of `float(obj.to_decimal())`, the string of `str(obj)`, and
whether the float conversion succeeds (it raises e.g. on overflow). -/

/-- A Python value as `_sanitize_for_json` sees it: BSON scalar types,
datetimes, JSON primitives, and the container types it inspects. -/
inductive Value where
  | objectId (hex : String)
  | dbref (s : String)
  | decimal128 (asFloat : ℚ) (asStr : String) (convertible : Bool)
  | datetime (d : DateTime)
  | dateOnly (d : DateTime)
  | str (s : String)
  | num (q : ℚ)
  | boolean (b : Bool)
  | null
  | dict (fields : List (String × Value))
  | arr (items : List Value)
  | tuple (items : List Value)
  | set (items : List Value)
deriving Repr

mutual

/-- Embeds `_sanitize_for_json`: ObjectId/DBRef to string, Decimal128 to float (or
string when conversion fails), datetime/date to ISO string, dicts recursed
with `_id` keys dropped, list/tuple/set to recursed lists, rest unchanged. -/
def sanitize : Value → Value
  | .objectId h => .str h
  | .dbref s => .str s
  | .decimal128 f s ok => if ok then .num f else .str s
  | .datetime d => .str d.iso
  | .dateOnly d => .str d.iso
  | .str s => .str s
  | .num q => .num q
  | .boolean b => .boolean b
  | .null => .null
  | .dict fs => .dict (sanitizeFields fs)
  | .arr xs => .arr (sanitizeList xs)
  | .tuple xs => .arr (sanitizeList xs)
  | .set xs => .arr (sanitizeList xs)

/-- The `[_sanitize_for_json(v) for v in obj]` comprehension. -/
def sanitizeList : List Value → List Value
  | [] => []
  | x :: xs => sanitize x :: sanitizeList xs

/-- The dict loop: skip `_id` keys, recurse into the other values. -/
def sanitizeFields : List (String × Value) → List (String × Value)
  | [] => []
  | (k, v) :: fs =>
    if k = "_id" then sanitizeFields fs else (k, sanitize v) :: sanitizeFields fs

end

mutual

/-- JSON-cleanliness: no BSON scalar, datetime, date, tuple or set node
anywhere, and no dict key `"_id"` at any depth. -/
def jsonClean : Value → Bool
  | .objectId _ => false
  | .dbref _ => false
  | .decimal128 _ _ _ => false
  | .datetime _ => false
  | .dateOnly _ => false
  | .str _ => true
  | .num _ => true
  | .boolean _ => true
  | .null => true
  | .dict fs => fieldsClean fs
  | .arr xs => listClean xs
  | .tuple _ => false
  | .set _ => false

/-- Cleanliness of every element of a list. -/
def listClean : List Value → Bool
  | [] => true
  | x :: xs => jsonClean x && listClean xs

/-- Cleanliness of dict fields: no `"_id"` key, all values clean. -/
def fieldsClean : List (String × Value) → Bool
  | [] => true
  | (k, v) :: fs => decide (k ≠ "_id") && jsonClean v && fieldsClean fs

end

/-! ## Lemmas about the sanitizer -/

lemma listClean_sanitizeList (xs : List Value)
    (h : ∀ x ∈ xs, jsonClean (sanitize x) = true) :
    listClean (sanitizeList xs) = true := by
  induction xs with
  | nil => simp [sanitizeList, listClean]
  | cons x xs ih =>
    simp only [sanitizeList, listClean, Bool.and_eq_true]
    exact ⟨h x (by simp), ih fun y hy => h y (by simp [hy])⟩

lemma fieldsClean_sanitizeFields (fs : List (String × Value))
    (h : ∀ kv ∈ fs, jsonClean (sanitize kv.2) = true) :
    fieldsClean (sanitizeFields fs) = true := by
  induction fs with
  | nil => simp [sanitizeFields, fieldsClean]
  | cons kv fs ih =>
    obtain ⟨k, v⟩ := kv
    by_cases hk : k = "_id"
    · simp only [sanitizeFields, if_pos hk]
      exact ih fun y hy => h y (by simp [hy])
    · simp only [sanitizeFields, if_neg hk, fieldsClean, Bool.and_eq_true,
        decide_eq_true_eq]
      exact ⟨⟨hk, h ⟨k, v⟩ (by simp)⟩, ih fun y hy => h y (by simp [hy])⟩

lemma sanitize_clean_aux :
    ∀ (n : ℕ) (v : Value), sizeOf v ≤ n → jsonClean (sanitize v) = true := by
  intro n
  induction n with
  | zero =>
    intro v h
    cases v <;> simp_arith at h
  | succ n ih =>
    intro v hv
    cases v with
    | dict fs =>
      simp only [sanitize, jsonClean]
      apply fieldsClean_sanitizeFields
      intro kv hkv
      apply ih
      have h1 := List.sizeOf_lt_of_mem hkv
      have h2 : sizeOf kv.2 < sizeOf kv := by
        obtain ⟨a, b⟩ := kv; simp_arith
      have h3 : sizeOf (Value.dict fs) = 1 + sizeOf fs := by simp_arith
      omega
    | arr xs =>
      simp only [sanitize, jsonClean]
      apply listClean_sanitizeList
      intro x hx
      apply ih
      have h1 := List.sizeOf_lt_of_mem hx
      have h3 : sizeOf (Value.arr xs) = 1 + sizeOf xs := by simp_arith
      omega
    | tuple xs =>
      simp only [sanitize, jsonClean]
      apply listClean_sanitizeList
      intro x hx
      apply ih
      have h1 := List.sizeOf_lt_of_mem hx
      have h3 : sizeOf (Value.tuple xs) = 1 + sizeOf xs := by simp_arith
      omega
    | set xs =>
      simp only [sanitize, jsonClean]
      apply listClean_sanitizeList
      intro x hx
      apply ih
      have h1 := List.sizeOf_lt_of_mem hx
      have h3 : sizeOf (Value.set xs) = 1 + sizeOf xs := by simp_arith
      omega
    | decimal128 f s ok => cases ok <;> simp [sanitize, jsonClean]
    | _ => simp [sanitize, jsonClean]

/-! ## Lemmas about the grouping loop -/

/-- Loop invariant of the grouping loop after consuming the prefix `seen` of
the pipeline output: group patient_ids are distinct, they are exactly the
patient_ids seen so far, and each group carries precisely its patient's
invoices together with their running sums. -/
def GroupsInv (seen : List EnrichedInvoice) (groups : List PatientStatement) : Prop :=
  (groups.map (·.patient_id)).Nodup ∧
  (∀ pid : Int, pid ∈ groups.map (·.patient_id) ↔ pid ∈ seen.map (·.patient_id)) ∧
  ∀ g ∈ groups,
    g.invoices =
      (seen.filter (fun e => e.patient_id = g.patient_id)).map EnrichedInvoice.toStmt ∧
    g.total_invoiced =
      ((seen.filter (fun e => e.patient_id = g.patient_id)).map (·.patient_portion)).sum ∧
    g.payments_received =
      ((seen.filter (fun e => e.patient_id = g.patient_id)).map (·.total_paid)).sum ∧
    g.balance =
      ((seen.filter (fun e => e.patient_id = g.patient_id)).map (·.balance_due)).sum

lemma addInvoice_patient_id (st : PatientStatement) (e : EnrichedInvoice) :
    (addInvoice st e).patient_id = st.patient_id := rfl

lemma groupsInv_step (seen : List EnrichedInvoice) (groups : List PatientStatement)
    (e : EnrichedInvoice) (h : GroupsInv seen groups) :
    GroupsInv (seen ++ [e]) (updateGroups groups e) := by
  obtain ⟨hnd, hiff, hprops⟩ := h
  by_cases hmem : groups.any (fun g => g.patient_id = e.patient_id) = true
  · -- the patient already has a group: in-place update
    have hepid : e.patient_id ∈ groups.map (·.patient_id) := by
      simp only [List.any_eq_true, decide_eq_true_eq] at hmem
      obtain ⟨g, hg, hgid⟩ := hmem
      exact List.mem_map.mpr ⟨g, hg, hgid⟩
    have hidmap :
        ((groups.map fun g =>
            if g.patient_id = e.patient_id then addInvoice g e else g).map
          (·.patient_id)) = groups.map (·.patient_id) := by
      rw [List.map_map]
      apply List.map_congr_left
      intro g _
      by_cases hg' : g.patient_id = e.patient_id <;> simp [hg', addInvoice]
    simp only [updateGroups, hmem, if_true]
    refine ⟨hidmap ▸ hnd, ?_, ?_⟩
    · intro pid
      rw [hidmap, hiff pid]
      simp only [List.map_append, List.mem_append, List.map_cons, List.map_nil,
        List.mem_singleton]
      constructor
      · exact fun hp => Or.inl hp
      · rintro (hp | rfl)
        · exact hp
        · exact (hiff _).mp hepid
    · intro g' hg'
      obtain ⟨g, hg, rfl⟩ := List.mem_map.mp hg'
      by_cases hgid : g.patient_id = e.patient_id
      · obtain ⟨hinv, hti, hpr, hbal⟩ := hprops g hg
        simp only [if_pos hgid]
        have hfil : ∀ (p : EnrichedInvoice → ℚ),
            (((seen ++ [e]).filter
              (fun x => x.patient_id = (addInvoice g e).patient_id)).map p) =
            ((seen.filter (fun x => x.patient_id = g.patient_id)).map p) ++ [p e] := by
          intro p
          rw [addInvoice_patient_id, List.filter_append]
          simp [hgid.symm]
        refine ⟨?_, ?_, ?_, ?_⟩
        · rw [addInvoice_patient_id, List.filter_append]
          simp only [addInvoice, hinv, List.map_append]
          simp [hgid.symm]
        · rw [hfil]
          simp [addInvoice, hti]
        · rw [hfil]
          simp [addInvoice, hpr]
        · rw [hfil]
          simp [addInvoice, hbal]
      · obtain ⟨hinv, hti, hpr, hbal⟩ := hprops g hg
        simp only [if_neg hgid]
        have hfil : ((seen ++ [e]).filter (fun x => x.patient_id = g.patient_id)) =
            (seen.filter (fun x => x.patient_id = g.patient_id)) := by
          rw [List.filter_append]
          have : e.patient_id ≠ g.patient_id := fun hc => hgid hc.symm
          simp [this]
        rw [hfil]
        exact ⟨hinv, hti, hpr, hbal⟩
  · -- new patient: append a fresh group
    have hmem' : groups.any (fun g => g.patient_id = e.patient_id) = false :=
      Bool.eq_false_iff.mpr hmem
    have hnotin : e.patient_id ∉ groups.map (·.patient_id) := by
      simp only [List.any_eq_false, decide_eq_true_eq] at hmem'
      intro hc
      obtain ⟨g, hg, hgid⟩ := List.mem_map.mp hc
      exact hmem' g hg hgid
    have hseen : e.patient_id ∉ seen.map (·.patient_id) :=
      fun hc => hnotin ((hiff _).mpr hc)
    have hseenfil : ∀ pid : Int, pid = e.patient_id →
        seen.filter (fun x => x.patient_id = pid) = [] := by
      intro pid hpid
      rw [List.filter_eq_nil_iff]
      intro a ha
      simp only [decide_eq_true_eq, hpid]
      intro hc
      exact hseen (List.mem_map.mpr ⟨a, ha, hc⟩)
    simp only [updateGroups, hmem', Bool.false_eq_true, if_false]
    refine ⟨?_, ?_, ?_⟩
    · rw [List.map_append]
      rw [List.nodup_append]
      refine ⟨hnd, by simp, ?_⟩
      intro pid hpid
      simp only [List.map_cons, List.map_nil, addInvoice_patient_id,
        List.mem_singleton]
      intro hc
      subst hc
      exact hnotin hpid
    · intro pid
      simp only [List.map_append, List.mem_append, List.map_cons, List.map_nil,
        List.mem_singleton, addInvoice_patient_id]
      constructor
      · rintro (hp | rfl)
        · exact Or.inl ((hiff _).mp hp)
        · exact Or.inr rfl
      · rintro (hp | rfl)
        · exact Or.inl ((hiff _).mpr hp)
        · exact Or.inr rfl
    · intro g' hg'
      rcases List.mem_append.mp hg' with hg | hg
      · obtain ⟨hinv, hti, hpr, hbal⟩ := hprops g' hg
        have hne : e.patient_id ≠ g'.patient_id := by
          intro hc
          exact hnotin (hc ▸ List.mem_map.mpr ⟨g', hg, rfl⟩)
        have hfil : ((seen ++ [e]).filter (fun x => x.patient_id = g'.patient_id)) =
            (seen.filter (fun x => x.patient_id = g'.patient_id)) := by
          rw [List.filter_append]
          simp [hne]
        rw [hfil]
        exact ⟨hinv, hti, hpr, hbal⟩
      · have hg'' : g' = addInvoice (newStatement e) e := by simpa using hg
        subst hg''
        have hpid : (addInvoice (newStatement e) e).patient_id = e.patient_id := rfl
        have hfil : ((seen ++ [e]).filter
            (fun x => x.patient_id = (addInvoice (newStatement e) e).patient_id)) = [e] := by
          rw [hpid, List.filter_append, hseenfil e.patient_id rfl]
          simp
        rw [hfil]
        simp [addInvoice, newStatement, EnrichedInvoice.toStmt]

lemma groupsInv_foldl (l : List EnrichedInvoice) :
    ∀ (seen : List EnrichedInvoice) (groups : List PatientStatement),
      GroupsInv seen groups → GroupsInv (seen ++ l) (l.foldl updateGroups groups) := by
  induction l with
  | nil => intro seen groups h; simpa using h
  | cons e l ih =>
    intro seen groups h
    simp only [List.foldl_cons]
    have := ih (seen ++ [e]) (updateGroups groups e) (groupsInv_step seen groups e h)
    simpa [List.append_assoc] using this

lemma groupByPatient_inv (l : List EnrichedInvoice) : GroupsInv l (groupByPatient l) := by
  have h0 : GroupsInv [] [] := ⟨by simp, by simp, by simp⟩
  have := groupsInv_foldl l [] [] h0
  simpa [groupByPatient] using this

/-! ## Lemmas about the classification loop -/

/-- Bucket totals as sums over a bucket's statements. -/
def bucketTotals (l : List PatientStatement) : BucketTotals :=
  { total_invoiced := (l.map (·.total_invoiced)).sum
    payments_received := (l.map (·.payments_received)).sum
    balance := (l.map (·.balance)).sum }

lemma classify_foldl (l : List PatientStatement) :
    ∀ acc : Summary,
      l.foldl classifyStep acc =
        { paid_patients := acc.paid_patients ++ l.filter isPaidStatement
          paid_totals :=
            { total_invoiced := acc.paid_totals.total_invoiced +
                ((l.filter isPaidStatement).map (·.total_invoiced)).sum
              payments_received := acc.paid_totals.payments_received +
                ((l.filter isPaidStatement).map (·.payments_received)).sum
              balance := acc.paid_totals.balance +
                ((l.filter isPaidStatement).map (·.balance)).sum }
          unpaid_patients :=
            acc.unpaid_patients ++ l.filter (fun p => !isPaidStatement p)
          unpaid_totals :=
            { total_invoiced := acc.unpaid_totals.total_invoiced +
                ((l.filter (fun p => !isPaidStatement p)).map (·.total_invoiced)).sum
              payments_received := acc.unpaid_totals.payments_received +
                ((l.filter (fun p => !isPaidStatement p)).map (·.payments_received)).sum
              balance := acc.unpaid_totals.balance +
                ((l.filter (fun p => !isPaidStatement p)).map (·.balance)).sum } } := by
  induction l with
  | nil =>
    intro acc
    simp only [List.foldl_nil, List.filter_nil, List.append_nil, List.map_nil,
      List.sum_nil, add_zero]
  | cons p l ih =>
    intro acc
    by_cases hp : isPaidStatement p = true
    · simp only [List.foldl_cons, classifyStep, hp, if_true, ih,
        List.filter_cons, Bool.not_true, Bool.false_eq_true, if_false,
        List.append_assoc, List.map_cons,
        List.sum_cons, List.singleton_append, add_assoc]
    · have hp' : isPaidStatement p = false := Bool.eq_false_iff.mpr hp
      simp only [List.foldl_cons, classifyStep, hp', Bool.false_eq_true, if_false,
        ih, List.filter_cons, Bool.not_false, if_true, List.append_assoc,
        List.map_cons, List.sum_cons, List.singleton_append, add_assoc]

lemma classify_eq (l : List PatientStatement) :
    classify l =
      { paid_patients := l.filter isPaidStatement
        paid_totals := bucketTotals (l.filter isPaidStatement)
        unpaid_patients := l.filter (fun p => !isPaidStatement p)
        unpaid_totals := bucketTotals (l.filter (fun p => !isPaidStatement p)) } := by
  rw [classify, classify_foldl]
  simp [bucketTotals]

/-! ## The spec's description of the monthly-statement sequence -/

/-- The monthly-statement computation exactly as the spec words it: half-open
date-range match (month 12 ending on January 1 of `year+1`), patient /
payments-by-cutoff / invoice-line lookups, per-invoice totals, per-patient
grouping, paid/unpaid bucketing of patients, bucket summation. -/
def specMonthlyStatements (db : DB) (month year : Int) : MonthlyStatements :=
  let rangeStart : DateTime := ⟨year, month, 1⟩
  let rangeEnd : DateTime :=
    if month = 12 then ⟨year + 1, 1, 1⟩ else ⟨year, month + 1, 1⟩
  let matched := db.invoices.filter fun inv =>
    rangeStart.leb inv.invoice_date && inv.invoice_date.ltb rangeEnd
  let perInvoice := matched.flatMap fun inv =>
    (db.patients.filter fun p => p.patient_id = inv.patient_id).map fun pat =>
      let pays := db.payments.filter fun p =>
        p.invoice_id = inv.invoice_id && p.payment_date.leb rangeEnd
      let paid := (pays.map (·.amount)).sum
      ({ invoice_id := inv.invoice_id
         invoice_date := inv.invoice_date
         patient_id := inv.patient_id
         patient_name := pat.first_name ++ " " ++ pat.last_name
         total_amount := inv.total_amount
         patient_portion := inv.patient_portion
         total_paid := paid
         balance_due := inv.patient_portion - paid
         lines := db.invoiceLines.filter fun ln => ln.invoice_id = inv.invoice_id
         payments := pays } : EnrichedInvoice)
  let groups := groupByPatient perInvoice
  let paidG := groups.filter isPaidStatement
  let unpaidG := groups.filter fun p => !isPaidStatement p
  { month := toString month ++ "/" ++ toString year
    summary :=
      { paid_patients := paidG
        paid_totals := bucketTotals paidG
        unpaid_patients := unpaidG
        unpaid_totals := bucketTotals unpaidG } }

/-! ## The Flask route /statements/monthly (app.py lines 2071-2091) -/

/-- The JSON response of the `/statements/monthly` route: status code plus
the fields the three return sites populate. -/
structure StatementsResponse where
  status : Nat
  error : Option String
  detail : Option String
  report : Option MonthlyStatements
deriving DecidableEq, Repr

/-- Whether `ReportService.get_monthly_statements(month, year)` raises:
`datetime(year, month, 1)` (or the end date `datetime(year+1, 1, 1)` when
`month == 12`) is out of Python's datetime range. -/
def reportRaises (month year : Int) : Bool :=
  !(1 ≤ month && month ≤ 12 && 1 ≤ year && year ≤ 9999) ||
    (month = 12 && year = 9999)

/-- The report computation as the route observes it: a value, or a raised
exception (`Except.error` with the exception text). -/
def get_monthly_statements_exc (db : DB) (month year : Int) :
    Except String MonthlyStatements :=
  if reportRaises month year then .error "date value out of range"
  else .ok (get_monthly_statements db month year)

/-- The `/statements/monthly` Flask handler: `month`/`year` are the query
parameters after `type=int` conversion (`none` when absent or unparsable).
Missing or zero parameters short-circuit to 400 before any report work; an
exception from the report computation becomes a 500 response; otherwise the
report is returned with 200. The database is only read, never written. -/
def route_monthly_statements (db : DB) (month year : Option Int) :
    StatementsResponse × DB :=
  match month, year with
  | some m, some y =>
    if m = 0 || y = 0 then
      ({ status := 400, error := some "Month and Year required",
         detail := none, report := none }, db)
    else
      match get_monthly_statements_exc db m y with
      | .ok r =>
        ({ status := 200, error := none, detail := none, report := some r }, db)
      | .error msg =>
        ({ status := 500, error := some "internal server error",
           detail := some msg, report := none }, db)
  | _, _ =>
    ({ status := 400, error := some "Month and Year required",
       detail := none, report := none }, db)

/-! ## The get-patient-by-id routes (backend_v2/main.py 90-96, app.py 1116-1122) -/

/-- The JSON response of `GET /patients/{patient_id}`. -/
structure PatientResponse where
  status : Nat
  error : Option String
  patient : Option Patient
deriving DecidableEq, Repr

/-- Modelled from the spec: `PatientCRUD.get` lives in `crud_patient.py`,
which is absent from the source tree (only its route callers in
`backend_v2/main.py` and `backend/app.py` are present). The spec describes
every such endpoint as "direct pass-through CRUD (one collection, one filter,
return JSON)", so it is modelled as the single-filter `find_one` on the
Patient collection by `patient_id`: the first matching document, if any. -/
def PatientCRUD_get (db : DB) (pid : Int) : Option Patient :=
  (db.patients.filter fun p => p.patient_id = pid).head?

/-- The `GET /patients/{patient_id}` handler (identical logic in both
backends): 404 with "Patient not found" when the lookup returns nothing,
otherwise 200 with the record. The database is only read, never written. -/
def route_get_patient (db : DB) (pid : Int) : PatientResponse × DB :=
  match PatientCRUD_get db pid with
  | none => ({ status := 404, error := some "Patient not found", patient := none }, db)
  | some p => ({ status := 200, error := none, patient := some p }, db)

/-! ## Counting and flatMap helper lemmas -/

lemma length_filter_split {α : Type} (l : List α) (p q : α → Bool) :
    (l.filter fun a => p a && q a).length +
      (l.filter fun a => !p a && q a).length = (l.filter q).length := by
  induction l with
  | nil => simp
  | cons a l ih =>
    by_cases hq : q a = true <;> by_cases hp : p a = true <;>
      simp [List.filter_cons, hq, hp, ih] <;> omega

lemma length_filter_eq_one_of_nodup_map {α : Type} (f : α → Int) (l : List α)
    (hn : (l.map f).Nodup) (pid : Int) (hmem : pid ∈ l.map f) :
    (l.filter fun g => f g = pid).length = 1 := by
  induction l with
  | nil => simp at hmem
  | cons a l ih =>
    simp only [List.map_cons, List.nodup_cons] at hn
    obtain ⟨hna, hnl⟩ := hn
    simp only [List.map_cons, List.mem_cons] at hmem
    by_cases ha : f a = pid
    · have htail : l.filter (fun g => f g = pid) = [] := by
        rw [List.filter_eq_nil_iff]
        intro b hb
        simp only [decide_eq_true_eq]
        intro hc
        exact hna (List.mem_map.mpr ⟨b, hb, by rw [hc, ha]⟩)
      simp [List.filter_cons, ha, htail]
    · rcases hmem with h1 | h1
      · exact absurd h1.symm ha
      · simp only [List.filter_cons, decide_eq_true_eq]
        rw [if_neg ha]
        exact ih hnl h1

lemma flatMap_filter_keep {α β : Type} (keep : α → Bool) (f : α → List β)
    (h : ∀ a, keep a = false → f a = []) :
    ∀ l : List α, (l.filter keep).flatMap f = l.flatMap f := by
  intro l
  induction l with
  | nil => simp
  | cons a l ih =>
    by_cases ha : keep a = true
    · simp [List.filter_cons, ha, ih]
    · have ha' : keep a = false := Bool.eq_false_iff.mpr ha
      simp [List.filter_cons, ha', h a ha', ih]

/-! ## Membership characterizations of the two aggregations -/

lemma mem_monthlyPipeline (db : DB) (month year : Int) (e : EnrichedInvoice) :
    e ∈ monthlyPipeline db month year ↔
      ∃ inv ∈ db.invoices, ∃ pat ∈ db.patients,
        pat.patient_id = inv.patient_id ∧
        (monthStart month year).leb inv.invoice_date = true ∧
        inv.invoice_date.ltb (monthEnd month year) = true ∧
        e = computeTotals db month year (inv, pat) := by
  simp only [monthlyPipeline, lookupPatientUnwind, matchInvoiceDate, patientsFor,
    List.mem_map, List.mem_flatMap, List.mem_filter, Bool.and_eq_true,
    decide_eq_true_eq]
  constructor
  · rintro ⟨⟨inv, pat⟩, ⟨inv', ⟨hinv', hs, hl⟩, pat', ⟨hpat', hid⟩, heq⟩, rfl⟩
    rw [Prod.mk.injEq] at heq
    obtain ⟨rfl, rfl⟩ := heq
    exact ⟨inv', hinv', pat', hpat', hid, hs, hl, rfl⟩
  · rintro ⟨inv, hinv, pat, hpat, hid, hs, hl, rfl⟩
    exact ⟨(inv, pat), ⟨inv, ⟨hinv, hs, hl⟩, ⟨pat, ⟨hpat, hid⟩, rfl⟩⟩, rfl⟩

lemma mem_outstanding (db : DB) (r : OutstandingRow) :
    r ∈ get_outstanding_balances db ↔
      ∃ inv ∈ db.invoices, ∃ pat ∈ db.patients,
        pat.patient_id = inv.patient_id ∧
        inv.status ≠ "paid" ∧
        0 < inv.patient_portion - ((paymentsFor db inv.invoice_id).map (·.amount)).sum ∧
        r = outstandingRow db inv pat := by
  simp only [get_outstanding_balances, patientsFor, List.mem_filter,
    List.mem_flatMap, List.mem_map, Bool.and_eq_true, decide_eq_true_eq]
  constructor
  · rintro ⟨⟨inv, ⟨hinv, hst⟩, pat, ⟨hpat, hid⟩, rfl⟩, hbal⟩
    refine ⟨inv, hinv, pat, hpat, hid, hst, ?_, rfl⟩
    simpa [outstandingRow] using hbal
  · rintro ⟨inv, hinv, pat, hpat, hid, hst, hbal, rfl⟩
    refine ⟨⟨inv, ⟨hinv, hst⟩, pat, ⟨hpat, hid⟩, rfl⟩, ?_⟩
    simpa [outstandingRow] using hbal

/-- The fields of a pipeline document, recovered from membership. -/
lemma monthlyPipeline_fields (db : DB) (month year : Int) (e : EnrichedInvoice)
    (he : e ∈ monthlyPipeline db month year) :
    e.payments = db.payments.filter
      (fun p => p.invoice_id = e.invoice_id &&
        p.payment_date.leb (monthEnd month year)) ∧
    e.total_paid = (e.payments.map (·.amount)).sum ∧
    e.balance_due = e.patient_portion - (e.payments.map (·.amount)).sum ∧
    e.lines = db.invoiceLines.filter (fun l => l.invoice_id = e.invoice_id) := by
  obtain ⟨inv, hinv, pat, hpat, hid, hs, hl, rfl⟩ :=
    (mem_monthlyPipeline db month year e).mp he
  refine ⟨?_, rfl, rfl, rfl⟩
  simp [computeTotals, paymentsByCutoff]

/-! ## A concrete database state for witnesses and counterexamples

Patient 1 has two March-2024 invoices: one with no payments (balance 10)
and one overpaid by 10 (balance −10), so the patient's total balance is 0.
Patient 2 has one March invoice partially paid before month-end and one
payment after the cutoff. Invoice 104 references patient 3, who does not
exist. Invoice 105 is outside March; invoice 106 has status "paid". -/

def exampleDB : DB :=
  { patients :=
      [ { patient_id := 1, first_name := "Ada", last_name := "Lovelace" }
      , { patient_id := 2, first_name := "Alan", last_name := "Turing" } ]
    invoices :=
      [ { invoice_id := 101, patient_id := 1, invoice_date := ⟨2024, 3, 5⟩
          total_amount := 100, patient_portion := 10, status := "unpaid" }
      , { invoice_id := 102, patient_id := 1, invoice_date := ⟨2024, 3, 10⟩
          total_amount := 100, patient_portion := 10, status := "unpaid" }
      , { invoice_id := 103, patient_id := 2, invoice_date := ⟨2024, 3, 15⟩
          total_amount := 50, patient_portion := 30, status := "unpaid" }
      , { invoice_id := 104, patient_id := 3, invoice_date := ⟨2024, 3, 20⟩
          total_amount := 40, patient_portion := 40, status := "unpaid" }
      , { invoice_id := 105, patient_id := 2, invoice_date := ⟨2024, 4, 2⟩
          total_amount := 60, patient_portion := 60, status := "unpaid" }
      , { invoice_id := 106, patient_id := 1, invoice_date := ⟨2024, 2, 1⟩
          total_amount := 20, patient_portion := 20, status := "paid" } ]
    payments :=
      [ { payment_id := 201, invoice_id := 102, payment_date := ⟨2024, 3, 15⟩
          amount := 20 }
      , { payment_id := 202, invoice_id := 103, payment_date := ⟨2024, 3, 16⟩
          amount := 5 }
      , { payment_id := 203, invoice_id := 103, payment_date := ⟨2024, 5, 1⟩
          amount := 100 } ]
    invoiceLines :=
      [ { line_id := 301, invoice_id := 101, description := "Consult"
          amount := 100 } ] }

/-- Fallback values used with `List.getD` in closed witness statements. -/
def dummyStatement : PatientStatement := ⟨0, "", [], 0, 0, 0⟩

/-- Fallback pipeline document for `List.getD`. -/
def dummyEnriched : EnrichedInvoice := ⟨0, ⟨0, 0, 0⟩, 0, "", 0, 0, 0, 0, [], []⟩

/-- Fallback outstanding-balance row for `List.getD`. -/
def dummyRow : OutstandingRow := ⟨"", 0, 0, 0, 0, 0, 0⟩

example : (matchInvoiceDate exampleDB.invoices 3 2024).length = 4 := by decide
example : (monthlyPipeline exampleDB 3 2024).length = 3 := by decide
example : ((monthlyPipeline exampleDB 3 2024).map (·.balance_due)) =
    [(10 : ℚ), -10, 25] := by
  simp [monthlyPipeline, lookupPatientUnwind, matchInvoiceDate, exampleDB,
    computeTotals, paymentsByCutoff, patientsFor, DateTime.leb, DateTime.ltb,
    monthStart, monthEnd]
  norm_num
/-! ## Claim theorems -/

/-- Claim C1 counterexample: in `exampleDB`, month 3/2024, the `summary.paid`
bucket contains an invoice with `patient_portion = 10`, `total_paid = 0`
(no payment on or before the cutoff) and `balance_due = 10 > 0` — an
invoice that is NOT fully paid by the cutoff sits in the paid bucket,
because classification is per patient (patient 1's other invoice is
overpaid by 10, making the patient's total balance 0). This refutes the
claim that an entry lands in `summary.paid` exactly when it is fully paid
by payments dated on or before the cutoff. -/
theorem C1_counterexample_unpaid_invoice_in_paid_bucket :
    ((get_monthly_statements exampleDB 3 2024).summary.paid_patients.map
        fun p => p.invoices.map fun i => (i.patient_portion, i.total_paid, i.balance_due)) =
      [[((10 : ℚ), (0 : ℚ), (10 : ℚ)), (10, 20, -10)]] ∧
    ((get_monthly_statements exampleDB 3 2024).summary.unpaid_patients.map
        fun p => p.invoices.map fun i => (i.patient_portion, i.total_paid, i.balance_due)) =
      [[((30 : ℚ), (5 : ℚ), (25 : ℚ))]] := by
  constructor <;>
    norm_num [get_monthly_statements, classify, classifyStep, isPaidStatement,
      groupByPatient, updateGroups, addInvoice, newStatement,
      EnrichedInvoice.toStmt, monthlyPipeline, lookupPatientUnwind,
      matchInvoiceDate, exampleDB, computeTotals, paymentsByCutoff, patientsFor,
      DateTime.leb, DateTime.ltb, monthStart, monthEnd, pyRound2]

/-- Claim C1 (amended): `get_monthly_statements` classifies per PATIENT, not per
invoice: a patient's entry (with all its in-month invoices) lands in
`summary.paid` exactly when the patient's total balance — the sum over the
patient's in-month invoices of `patient_portion` minus the payments dated on
or before the cutoff (the first day of the following month) — rounded to two
decimals, is `≤ 0`, and in `summary.unpaid` otherwise. -/
theorem C1_amended_per_patient_classification (db : DB) (month year : Int) :
    ((get_monthly_statements db month year).summary.paid_patients =
      (groupByPatient (monthlyPipeline db month year)).filter
        fun p => decide (pyRound2 p.balance ≤ 0)) ∧
    ((get_monthly_statements db month year).summary.unpaid_patients =
      (groupByPatient (monthlyPipeline db month year)).filter
        fun p => !(decide (pyRound2 p.balance ≤ 0))) ∧
    (∀ g ∈ groupByPatient (monthlyPipeline db month year),
      g.balance = (((monthlyPipeline db month year).filter
          fun e => e.patient_id = g.patient_id).map
          fun e => e.patient_portion -
            ((db.payments.filter fun p =>
                p.invoice_id = e.invoice_id &&
                  p.payment_date.leb (monthEnd month year)).map (·.amount)).sum).sum) := by
  obtain ⟨hnd, hiff, hprops⟩ := groupByPatient_inv (monthlyPipeline db month year)
  refine ⟨?_, ?_, ?_⟩
  · rw [get_monthly_statements]
    show (classify _).paid_patients = _
    rw [classify_eq]
    rfl
  · rw [get_monthly_statements]
    show (classify _).unpaid_patients = _
    rw [classify_eq]
    rfl
  · intro g hg
    obtain ⟨_, _, _, hbal⟩ := hprops g hg
    rw [hbal]
    congr 1
    apply List.map_congr_left
    intro e he
    have he' : e ∈ monthlyPipeline db month year := (List.mem_filter.mp he).1
    obtain ⟨hpay, _, hbd, _⟩ := monthlyPipeline_fields db month year e he'
    rw [hbd, hpay]

/-- Claim C1 (amended) witness at `exampleDB`, month 3/2024: the paid bucket is
the rounded-balance-`≤ 0` filter of the patient groups, and the first
patient group's balance is the sum of its in-month invoices'
portion-minus-cutoff-payments. -/
theorem C1_amended_per_patient_classification_witness :
    ((get_monthly_statements exampleDB 3 2024).summary.paid_patients =
      (groupByPatient (monthlyPipeline exampleDB 3 2024)).filter
        fun p => decide (pyRound2 p.balance ≤ 0)) ∧
    ((groupByPatient (monthlyPipeline exampleDB 3 2024)).getD 0 dummyStatement).balance =
      (((monthlyPipeline exampleDB 3 2024).filter
          fun e => e.patient_id =
            ((groupByPatient (monthlyPipeline exampleDB 3 2024)).getD 0
              dummyStatement).patient_id).map
          fun e => e.patient_portion -
            ((exampleDB.payments.filter fun p =>
                p.invoice_id = e.invoice_id &&
                  p.payment_date.leb (monthEnd 3 2024)).map (·.amount)).sum).sum := by
  have hlen : 0 < (groupByPatient (monthlyPipeline exampleDB 3 2024)).length := by
    norm_num [groupByPatient, updateGroups, addInvoice, newStatement,
      monthlyPipeline, lookupPatientUnwind, matchInvoiceDate, exampleDB,
      computeTotals, paymentsByCutoff, patientsFor, DateTime.leb, DateTime.ltb,
      monthStart, monthEnd]
  have hmem : (groupByPatient (monthlyPipeline exampleDB 3 2024)).getD 0 dummyStatement ∈
      groupByPatient (monthlyPipeline exampleDB 3 2024) := by
    rw [List.getD_eq_getElem _ _ hlen]
    exact List.getElem_mem hlen
  exact ⟨(C1_amended_per_patient_classification exampleDB 3 2024).1,
    (C1_amended_per_patient_classification exampleDB 3 2024).2.2 _ hmem⟩

/-- Claim C2: in both aggregations each processed invoice's `balance_due` equals
`patient_portion` minus the sum of the amounts of the payments looked up
for that invoice (the cutoff-limited lookup in the monthly pipeline, the
unrestricted lookup in the outstanding-balances view). -/
theorem C2_balance_due_is_portion_minus_payments (db : DB) (month year : Int) :
    (∀ e ∈ monthlyPipeline db month year,
      e.balance_due = e.patient_portion - (e.payments.map (·.amount)).sum) ∧
    (∀ r ∈ get_outstanding_balances db,
      r.balance_due = r.patient_portion -
        ((paymentsFor db r.invoice_id).map (·.amount)).sum) := by
  constructor
  · intro e he
    obtain ⟨_, _, hbd, _⟩ := monthlyPipeline_fields db month year e he
    exact hbd
  · intro r hr
    obtain ⟨inv, _, pat, _, _, _, _, rfl⟩ := (mem_outstanding db r).mp hr
    simp [outstandingRow]

/-- Claim C2 witness: the first document of the monthly pipeline and the first
outstanding-balances row of `exampleDB` satisfy the balance equation. -/
theorem C2_balance_due_is_portion_minus_payments_witness :
    ((monthlyPipeline exampleDB 3 2024).getD 0 dummyEnriched).balance_due =
      ((monthlyPipeline exampleDB 3 2024).getD 0 dummyEnriched).patient_portion -
        ((((monthlyPipeline exampleDB 3 2024).getD 0 dummyEnriched).payments.map
          (·.amount)).sum) ∧
    ((get_outstanding_balances exampleDB).getD 0 dummyRow).balance_due =
      ((get_outstanding_balances exampleDB).getD 0 dummyRow).patient_portion -
        ((paymentsFor exampleDB
          ((get_outstanding_balances exampleDB).getD 0 dummyRow).invoice_id).map
            (·.amount)).sum := by
  have hlen1 : 0 < (monthlyPipeline exampleDB 3 2024).length := by decide
  have hmem1 : (monthlyPipeline exampleDB 3 2024).getD 0 dummyEnriched ∈
      monthlyPipeline exampleDB 3 2024 := by
    rw [List.getD_eq_getElem _ _ hlen1]
    exact List.getElem_mem hlen1
  have hlen2 : 0 < (get_outstanding_balances exampleDB).length := by
    simp [get_outstanding_balances, outstandingRow, paymentsFor,
      patientsFor, exampleDB]
  have hmem2 : (get_outstanding_balances exampleDB).getD 0 dummyRow ∈
      get_outstanding_balances exampleDB := by
    rw [List.getD_eq_getElem _ _ hlen2]
    exact List.getElem_mem hlen2
  exact ⟨(C2_balance_due_is_portion_minus_payments exampleDB 3 2024).1 _ hmem1,
    (C2_balance_due_is_portion_minus_payments exampleDB 3 2024).2 _ hmem2⟩

/-- Claim C3: every per-patient statement in the result carries exactly its
patient's in-month pipeline invoices, and its `total_invoiced`,
`payments_received` and `balance` are the sums of those invoices'
`patient_portion`, `total_paid` and `balance_due` respectively. -/
theorem C3_per_patient_sums (db : DB) (month year : Int) :
    ∀ s ∈ (get_monthly_statements db month year).summary.paid_patients ++
        (get_monthly_statements db month year).summary.unpaid_patients,
      s.invoices = ((monthlyPipeline db month year).filter
          fun e => e.patient_id = s.patient_id).map EnrichedInvoice.toStmt ∧
      s.total_invoiced = (((monthlyPipeline db month year).filter
          fun e => e.patient_id = s.patient_id).map (·.patient_portion)).sum ∧
      s.payments_received = (((monthlyPipeline db month year).filter
          fun e => e.patient_id = s.patient_id).map (·.total_paid)).sum ∧
      s.balance = (((monthlyPipeline db month year).filter
          fun e => e.patient_id = s.patient_id).map (·.balance_due)).sum := by
  intro s hs
  obtain ⟨_, _, hprops⟩ := groupByPatient_inv (monthlyPipeline db month year)
  apply hprops
  rw [get_monthly_statements] at hs
  have hs' : s ∈ (classify (groupByPatient (monthlyPipeline db month year))).paid_patients ++
      (classify (groupByPatient (monthlyPipeline db month year))).unpaid_patients := hs
  rw [classify_eq] at hs'
  rcases List.mem_append.mp hs' with h | h
  · exact (List.mem_filter.mp h).1
  · exact (List.mem_filter.mp h).1

/-- Claim C3 witness: the first patient statement of the 3/2024 result over
`exampleDB` satisfies the three sum equations. -/
theorem C3_per_patient_sums_witness :
    (((get_monthly_statements exampleDB 3 2024).summary.paid_patients ++
        (get_monthly_statements exampleDB 3 2024).summary.unpaid_patients).getD 0
      dummyStatement).total_invoiced =
      (((monthlyPipeline exampleDB 3 2024).filter
          fun e => e.patient_id =
            (((get_monthly_statements exampleDB 3 2024).summary.paid_patients ++
                (get_monthly_statements exampleDB 3 2024).summary.unpaid_patients).getD 0
              dummyStatement).patient_id).map (·.patient_portion)).sum := by
  have hlen : 0 < ((get_monthly_statements exampleDB 3 2024).summary.paid_patients ++
      (get_monthly_statements exampleDB 3 2024).summary.unpaid_patients).length := by
    norm_num [get_monthly_statements, classify, classifyStep, isPaidStatement,
      groupByPatient, updateGroups, addInvoice, newStatement,
      monthlyPipeline, lookupPatientUnwind, matchInvoiceDate, exampleDB,
      computeTotals, paymentsByCutoff, patientsFor, DateTime.leb, DateTime.ltb,
      monthStart, monthEnd, pyRound2]
  have hmem : ((get_monthly_statements exampleDB 3 2024).summary.paid_patients ++
      (get_monthly_statements exampleDB 3 2024).summary.unpaid_patients).getD 0
        dummyStatement ∈
      (get_monthly_statements exampleDB 3 2024).summary.paid_patients ++
        (get_monthly_statements exampleDB 3 2024).summary.unpaid_patients := by
    rw [List.getD_eq_getElem _ _ hlen]
    exact List.getElem_mem hlen
  exact ((C3_per_patient_sums exampleDB 3 2024) _ hmem).2.1

/-- Claim C4: `get_monthly_statements` is exactly the linear sequence the spec
describes, in the spec's order: half-open date-range match (ending on
January 1 of `year+1` for month 12), then the patient / cutoff-payments /
invoice-line lookups, then per-invoice totals, then per-patient grouping,
then paid/unpaid bucketing, then bucket summation. -/
theorem C4_pipeline_is_spec_sequence (db : DB) (month year : Int) :
    get_monthly_statements db month year = specMonthlyStatements db month year := by
  rw [get_monthly_statements, specMonthlyStatements, classify_eq]
  simp only [monthlyPipeline, lookupPatientUnwind, List.map_flatMap,
    List.map_map]
  rfl

/-- Claim C5: the outstanding-balances view returns exactly the rows built from an
invoice with `status ≠ "paid"` joined to a patient, whose
`patient_portion − Σ payments.amount` is strictly positive; consequently
every returned row has `balance_due > 0`. An invoice with status `"paid"`
is filtered out by the first `$match` before its balance is ever computed. -/
theorem C5_outstanding_balances_exact (db : DB) :
    (∀ r, r ∈ get_outstanding_balances db ↔
      ∃ inv ∈ db.invoices, ∃ pat ∈ db.patients,
        pat.patient_id = inv.patient_id ∧
        inv.status ≠ "paid" ∧
        0 < inv.patient_portion - ((paymentsFor db inv.invoice_id).map (·.amount)).sum ∧
        r = outstandingRow db inv pat) ∧
    (∀ r ∈ get_outstanding_balances db, 0 < r.balance_due) := by
  refine ⟨fun r => mem_outstanding db r, fun r hr => ?_⟩
  exact of_decide_eq_true (List.mem_filter.mp hr).2

/-- Claim C5 witness: the first outstanding row of `exampleDB` has a strictly
positive balance, and row membership matches the characterization. -/
theorem C5_outstanding_balances_exact_witness :
    0 < ((get_outstanding_balances exampleDB).getD 0 dummyRow).balance_due := by
  have hlen : 0 < (get_outstanding_balances exampleDB).length := by
    simp [get_outstanding_balances, outstandingRow, paymentsFor,
      patientsFor, exampleDB]
  have hmem : (get_outstanding_balances exampleDB).getD 0 dummyRow ∈
      get_outstanding_balances exampleDB := by
    rw [List.getD_eq_getElem _ _ hlen]
    exact List.getElem_mem hlen
  exact (C5_outstanding_balances_exact exampleDB).2 _ hmem

/-- Claim C6: the `/statements/monthly` route returns 400 with
`{"error": "Month and Year required"}` when month or year is missing or
zero (before any report work), 500 with an error body when the report
computation raises, and 200 with the report otherwise; the database state
is returned unchanged in every case. -/
theorem C6_monthly_statements_route (db : DB) (month year : Option Int) :
    (route_monthly_statements db month year).2 = db ∧
    ((month = none ∨ month = some 0 ∨ year = none ∨ year = some 0) →
      (route_monthly_statements db month year).1 =
        { status := 400, error := some "Month and Year required",
          detail := none, report := none }) ∧
    (∀ m y, month = some m → year = some y → m ≠ 0 → y ≠ 0 →
      (∀ msg, get_monthly_statements_exc db m y = .error msg →
        (route_monthly_statements db month year).1 =
          { status := 500, error := some "internal server error",
            detail := some msg, report := none }) ∧
      (∀ r, get_monthly_statements_exc db m y = .ok r →
        (route_monthly_statements db month year).1 =
          { status := 200, error := none, detail := none, report := some r })) := by
  refine ⟨?_, ?_, ?_⟩
  · cases month with
    | none => rfl
    | some m =>
      cases year with
      | none => rfl
      | some y =>
        by_cases hm : m = 0
        · simp [route_monthly_statements, hm]
        · by_cases hy : y = 0
          · simp [route_monthly_statements, hm, hy]
          · simp only [route_monthly_statements]
            rw [if_neg (by simp [hm, hy])]
            cases get_monthly_statements_exc db m y <;> rfl
  · rintro (rfl | rfl | rfl | rfl)
    · rfl
    · cases year with
      | none => rfl
      | some y => simp [route_monthly_statements]
    · cases month with
      | none => rfl
      | some m => rfl
    · cases month with
      | none => rfl
      | some m => simp [route_monthly_statements]
  · rintro m y rfl rfl hm hy
    constructor
    · intro msg hmsg
      simp only [route_monthly_statements]
      rw [if_neg (by simp [hm, hy]), hmsg]
    · intro r hr
      simp only [route_monthly_statements]
      rw [if_neg (by simp [hm, hy]), hr]

/-- Claim C6 witness: over `exampleDB`, a zero month yields 400, valid 3/2024
yields 200 with the report, and month 13 (a `datetime` `ValueError`)
yields 500. -/
theorem C6_monthly_statements_route_witness :
    (route_monthly_statements exampleDB (some 0) (some 2024)).1.status = 400 ∧
    (route_monthly_statements exampleDB (some 3) (some 2024)).1 =
      { status := 200, error := none, detail := none,
        report := some (get_monthly_statements exampleDB 3 2024) } ∧
    (route_monthly_statements exampleDB (some 13) (some 2024)).1.status = 500 := by
  refine ⟨?_, ?_, ?_⟩
  · rw [(C6_monthly_statements_route exampleDB (some 0) (some 2024)).2.1
      (Or.inr (Or.inl rfl))]
  · exact ((C6_monthly_statements_route exampleDB (some 3) (some 2024)).2.2
      3 2024 rfl rfl (by decide) (by decide)).2
      (get_monthly_statements exampleDB 3 2024)
      (by rw [get_monthly_statements_exc, if_neg (by decide)])
  · rw [((C6_monthly_statements_route exampleDB (some 13) (some 2024)).2.2
      13 2024 rfl rfl (by decide) (by decide)).1
      "date value out of range"
      (by rw [get_monthly_statements_exc, if_pos (by decide)])]

/-- Claim C7: `GET /patients/{patient_id}` is a pass-through of the single-filter
lookup on the Patient collection: it answers 200 with a stored patient
record bearing the requested id when one exists, and exactly otherwise
404 with "Patient not found"; the database state is returned unchanged. -/
theorem C7_get_patient_route (db : DB) (pid : Int) :
    (route_get_patient db pid).2 = db ∧
    ((∃ p ∈ db.patients, p.patient_id = pid) →
      (route_get_patient db pid).1.status = 200 ∧
      ∃ p, (route_get_patient db pid).1.patient = some p ∧
        p ∈ db.patients ∧ p.patient_id = pid) ∧
    ((¬ ∃ p ∈ db.patients, p.patient_id = pid) →
      (route_get_patient db pid).1 =
        { status := 404, error := some "Patient not found", patient := none }) := by
  rcases hfl : db.patients.filter (fun p => p.patient_id = pid) with _ | ⟨p, rest⟩
  · have hget : PatientCRUD_get db pid = none := by
      rw [PatientCRUD_get, hfl]
      rfl
    refine ⟨?_, ?_, ?_⟩
    · rw [route_get_patient, hget]
    · rintro ⟨p, hp, hpid⟩
      have : p ∈ db.patients.filter (fun q => q.patient_id = pid) :=
        List.mem_filter.mpr ⟨hp, by simp [hpid]⟩
      rw [hfl] at this
      simp at this
    · intro _
      rw [route_get_patient, hget]
  · have hget : PatientCRUD_get db pid = some p := by
      rw [PatientCRUD_get, hfl]
      rfl
    have hp : p ∈ db.patients.filter (fun q => q.patient_id = pid) := by
      rw [hfl]
      exact List.mem_cons_self p rest
    have hp' := List.mem_filter.mp hp
    refine ⟨?_, ?_, ?_⟩
    · rw [route_get_patient, hget]
    · intro _
      refine ⟨by rw [route_get_patient, hget], p, by rw [route_get_patient, hget], hp'.1, ?_⟩
      simpa using hp'.2
    · intro hno
      exact absurd ⟨p, hp'.1, by simpa using hp'.2⟩ hno

/-- Claim C7 witness: in `exampleDB`, patient 1 exists and is answered with 200;
patient 99 does not exist and is answered with the 404 body. -/
theorem C7_get_patient_route_witness :
    (route_get_patient exampleDB 1).1.status = 200 ∧
    (route_get_patient exampleDB 99).1 =
      { status := 404, error := some "Patient not found", patient := none } := by
  constructor
  · exact ((C7_get_patient_route exampleDB 1).2.1
      ⟨⟨1, "Ada", "Lovelace"⟩, by decide, rfl⟩).1
  · exact (C7_get_patient_route exampleDB 99).2.2 (by decide)

/-- Claim C9: the paid and unpaid patient lists partition the patients that have
an in-month invoice and exist in the Patient collection — each appears in
exactly one of the two lists — and for each of the three monetary fields
the paid-bucket total plus the unpaid-bucket total is the sum of that
field over all patients in the result. -/
theorem C9_buckets_partition_and_totals (db : DB) (month year : Int) :
    (∀ p ∈ db.patients,
      (∃ inv ∈ db.invoices, inv.patient_id = p.patient_id ∧
        (monthStart month year).leb inv.invoice_date = true ∧
        inv.invoice_date.ltb (monthEnd month year) = true) →
      (((get_monthly_statements db month year).summary.paid_patients ++
          (get_monthly_statements db month year).summary.unpaid_patients).filter
        fun s => s.patient_id = p.patient_id).length = 1) ∧
    ((get_monthly_statements db month year).summary.paid_totals.total_invoiced +
        (get_monthly_statements db month year).summary.unpaid_totals.total_invoiced =
      (((get_monthly_statements db month year).summary.paid_patients ++
          (get_monthly_statements db month year).summary.unpaid_patients).map
        (·.total_invoiced)).sum) ∧
    ((get_monthly_statements db month year).summary.paid_totals.payments_received +
        (get_monthly_statements db month year).summary.unpaid_totals.payments_received =
      (((get_monthly_statements db month year).summary.paid_patients ++
          (get_monthly_statements db month year).summary.unpaid_patients).map
        (·.payments_received)).sum) ∧
    ((get_monthly_statements db month year).summary.paid_totals.balance +
        (get_monthly_statements db month year).summary.unpaid_totals.balance =
      (((get_monthly_statements db month year).summary.paid_patients ++
          (get_monthly_statements db month year).summary.unpaid_patients).map
        (·.balance)).sum) := by
  obtain ⟨hnd, hiff, _⟩ := groupByPatient_inv (monthlyPipeline db month year)
  have hpaid : (get_monthly_statements db month year).summary.paid_patients =
      (groupByPatient (monthlyPipeline db month year)).filter isPaidStatement := by
    rw [get_monthly_statements]
    show (classify _).paid_patients = _
    rw [classify_eq]
  have hunpaid : (get_monthly_statements db month year).summary.unpaid_patients =
      (groupByPatient (monthlyPipeline db month year)).filter
        (fun g => !isPaidStatement g) := by
    rw [get_monthly_statements]
    show (classify _).unpaid_patients = _
    rw [classify_eq]
  have hpt : (get_monthly_statements db month year).summary.paid_totals =
      bucketTotals ((groupByPatient (monthlyPipeline db month year)).filter
        isPaidStatement) := by
    rw [get_monthly_statements]
    show (classify _).paid_totals = _
    rw [classify_eq]
  have hut : (get_monthly_statements db month year).summary.unpaid_totals =
      bucketTotals ((groupByPatient (monthlyPipeline db month year)).filter
        (fun g => !isPaidStatement g)) := by
    rw [get_monthly_statements]
    show (classify _).unpaid_totals = _
    rw [classify_eq]
  refine ⟨?_, ?_, ?_, ?_⟩
  · rintro p hp ⟨inv, hinv, hpid, hs, hl⟩
    have hmem : computeTotals db month year (inv, p) ∈ monthlyPipeline db month year :=
      (mem_monthlyPipeline db month year _).mpr
        ⟨inv, hinv, p, hp, hpid.symm, hs, hl, rfl⟩
    have hpidmem : p.patient_id ∈
        (monthlyPipeline db month year).map (·.patient_id) :=
      List.mem_map.mpr ⟨computeTotals db month year (inv, p), hmem, hpid⟩
    have hG : p.patient_id ∈
        (groupByPatient (monthlyPipeline db month year)).map (·.patient_id) :=
      (hiff _).mpr hpidmem
    rw [hpaid, hunpaid, List.filter_append, List.length_append,
      List.filter_filter, List.filter_filter]
    have hsplit := length_filter_split
      (groupByPatient (monthlyPipeline db month year)) isPaidStatement
      (fun s => s.patient_id = p.patient_id)
    have hone := length_filter_eq_one_of_nodup_map (fun g => g.patient_id)
      (groupByPatient (monthlyPipeline db month year)) hnd p.patient_id hG
    rw [← hone, ← hsplit]
    congr 1
    all_goals
      exact congrArg List.length (List.filter_congr fun a _ => Bool.and_comm _ _)
  · rw [hpt, hut, hpaid, hunpaid]
    simp [bucketTotals]
  · rw [hpt, hut, hpaid, hunpaid]
    simp [bucketTotals]
  · rw [hpt, hut, hpaid, hunpaid]
    simp [bucketTotals]

/-- Claim C9 witness: in `exampleDB`, 3/2024, patient 1 (who has a March invoice)
appears in exactly one bucket, and the `total_invoiced` totals add up. -/
theorem C9_buckets_partition_and_totals_witness :
    (((get_monthly_statements exampleDB 3 2024).summary.paid_patients ++
        (get_monthly_statements exampleDB 3 2024).summary.unpaid_patients).filter
      fun s => s.patient_id = 1).length = 1 ∧
    (get_monthly_statements exampleDB 3 2024).summary.paid_totals.total_invoiced +
        (get_monthly_statements exampleDB 3 2024).summary.unpaid_totals.total_invoiced =
      (((get_monthly_statements exampleDB 3 2024).summary.paid_patients ++
          (get_monthly_statements exampleDB 3 2024).summary.unpaid_patients).map
        (·.total_invoiced)).sum := by
  constructor
  · exact (C9_buckets_partition_and_totals exampleDB 3 2024).1
      ⟨1, "Ada", "Lovelace"⟩ (by decide)
      ⟨⟨101, 1, ⟨2024, 3, 5⟩, 100, 10, "unpaid"⟩, by decide, rfl, by decide, by decide⟩
  · exact (C9_buckets_partition_and_totals exampleDB 3 2024).2.1

/-! ## Orphan invoices (C10) -/

/-- Whether some Patient document matches the invoice's `patient_id`. -/
def hasPatient (db : DB) (inv : Invoice) : Bool :=
  db.patients.any fun p => p.patient_id = inv.patient_id

/-- The same database with the orphan invoices (no matching patient)
removed. -/
def dropOrphans (db : DB) : DB :=
  { db with invoices := db.invoices.filter (hasPatient db) }

lemma filter_swap {α : Type} (p q : α → Bool) (l : List α) :
    (l.filter p).filter q = (l.filter q).filter p := by
  rw [List.filter_filter, List.filter_filter]
  exact List.filter_congr fun a _ => Bool.and_comm _ _

lemma patientsFor_eq_nil_of_not_hasPatient (db : DB) (inv : Invoice)
    (h : hasPatient db inv = false) : patientsFor db inv.patient_id = [] := by
  rw [patientsFor, List.filter_eq_nil_iff]
  intro p hp
  simp only [decide_eq_true_eq]
  intro hc
  rw [hasPatient, List.any_eq_false] at h
  exact absurd (by simpa using hc) (h p hp)

lemma monthlyPipeline_dropOrphans (db : DB) (month year : Int) :
    monthlyPipeline (dropOrphans db) month year = monthlyPipeline db month year := by
  rw [monthlyPipeline, monthlyPipeline]
  have h1 : matchInvoiceDate (dropOrphans db).invoices month year =
      (matchInvoiceDate db.invoices month year).filter (hasPatient db) := by
    show matchInvoiceDate (db.invoices.filter (hasPatient db)) month year = _
    rw [matchInvoiceDate, matchInvoiceDate, filter_swap]
  rw [h1]
  have h2 : lookupPatientUnwind (dropOrphans db)
        ((matchInvoiceDate db.invoices month year).filter (hasPatient db)) =
      lookupPatientUnwind db (matchInvoiceDate db.invoices month year) := by
    rw [lookupPatientUnwind, lookupPatientUnwind]
    exact flatMap_filter_keep (hasPatient db) _
      (fun inv hinv => by
        rw [show patientsFor (dropOrphans db) inv.patient_id =
              patientsFor db inv.patient_id from rfl,
          patientsFor_eq_nil_of_not_hasPatient db inv hinv]
        rfl) _
  rw [h2]
  rfl

lemma outstanding_dropOrphans (db : DB) :
    get_outstanding_balances (dropOrphans db) = get_outstanding_balances db := by
  rw [get_outstanding_balances, get_outstanding_balances]
  congr 1
  show ((db.invoices.filter (hasPatient db)).filter
      (fun inv => inv.status ≠ "paid")).flatMap _ = _
  rw [filter_swap]
  exact flatMap_filter_keep (hasPatient db) _
    (fun inv hinv => by
      rw [show patientsFor (dropOrphans db) inv.patient_id =
            patientsFor db inv.patient_id from rfl,
        patientsFor_eq_nil_of_not_hasPatient db inv hinv]
      rfl) _

/-- Claim C10: invoices whose `patient_id` matches no Patient document are
silently dropped by the `$unwind` of the empty patient lookup: removing
them from the database changes neither the monthly statements nor the
outstanding balances, and every monthly-pipeline document has a matching
patient. -/
theorem C10_orphan_invoices_silently_omitted (db : DB) (month year : Int) :
    get_monthly_statements db month year =
      get_monthly_statements (dropOrphans db) month year ∧
    get_outstanding_balances db = get_outstanding_balances (dropOrphans db) ∧
    (∀ e ∈ monthlyPipeline db month year,
      ∃ p ∈ db.patients, p.patient_id = e.patient_id) := by
  refine ⟨?_, (outstanding_dropOrphans db).symm, ?_⟩
  · rw [get_monthly_statements, get_monthly_statements,
      monthlyPipeline_dropOrphans]
  · intro e he
    obtain ⟨inv, hinv, pat, hpat, hid, _, _, rfl⟩ :=
      (mem_monthlyPipeline db month year e).mp he
    exact ⟨pat, hpat, hid⟩

/-- Claim C10 witness: `exampleDB` contains the orphan invoice 104 (patient 3
does not exist), dropping orphans removes it, both reports agree on the
smaller database, and the first pipeline document has a matching patient. -/
theorem C10_orphan_invoices_silently_omitted_witness :
    (dropOrphans exampleDB).invoices.length + 1 = exampleDB.invoices.length ∧
    get_monthly_statements exampleDB 3 2024 =
      get_monthly_statements (dropOrphans exampleDB) 3 2024 ∧
    (∃ p ∈ exampleDB.patients,
      p.patient_id = ((monthlyPipeline exampleDB 3 2024).getD 0 dummyEnriched).patient_id) := by
  refine ⟨by decide, (C10_orphan_invoices_silently_omitted exampleDB 3 2024).1, ?_⟩
  have hlen : 0 < (monthlyPipeline exampleDB 3 2024).length := by decide
  have hmem : (monthlyPipeline exampleDB 3 2024).getD 0 dummyEnriched ∈
      monthlyPipeline exampleDB 3 2024 := by
    rw [List.getD_eq_getElem _ _ hlen]
    exact List.getElem_mem hlen
  exact (C10_orphan_invoices_silently_omitted exampleDB 3 2024).2.2 _ hmem

/-- Claim C8: for every input value, `_sanitize_for_json`'s result contains
no dict key `"_id"` at any depth and no ObjectId, DBRef, Decimal128,
datetime, date, tuple or set anywhere: they become strings, floats (or
strings on conversion failure), ISO strings and lists respectively. -/
theorem C8_sanitize_output_json_clean (v : Value) :
    jsonClean (sanitize v) = true :=
  sanitize_clean_aux (sizeOf v) v le_rfl

end Clinic
